import Mathlib

/-!
Verification development for the mcp-video-editing-assistant repository.

This file gives a shallow embedding, in Lean, of the editing-pattern
analysis engine of the repository:

* `Resolve`  embeds `ResolveEditingTracker.analyze_cut_patterns` and the
  `track_tool_usage` / `suggest_workflow_optimization` branches of
  `handle_call_tool` from `src/davinci_resolve_mcp.py`;
* `Watcher` embeds `EditingBehaviorTracker` (`track_session_start`,
  `track_action`, `analyze_cut_patterns`) and the `track_cut` branch of
  `handle_call_tool` from `src/editing_watcher.py`.

Python numbers are modelled as rationals, Python `None` as `Option.none`,
Python dictionaries as association lists in insertion order, and raised
exceptions as `Except.error`.  Timestamps (`datetime.now().isoformat()`)
are threaded in as an explicit `now : String` argument.  The theorems at
the end of the file settle the specification claims about this code.
-/

namespace VideoEditing

/-- A Python exception, as far as the embedded code can raise one. -/
inductive PyErr where
  | indexError
  | typeError
  deriving Repr, DecidableEq

/-- Model of a Python `dict` as an association list with unique keys kept in
insertion order: assigning to an existing key updates it in place, assigning
to a new key appends it at the end. -/
def dictSet {κ α : Type} [DecidableEq κ] : List (κ × α) → κ → α → List (κ × α)
  | [], k, v => [(k, v)]
  | (k0, v0) :: rest, k, v =>
    if k0 = k then (k0, v) :: rest else (k0, v0) :: dictSet rest k v

/-- Model of Python `d[k]` lookup (and of `k in d` via `Option.isSome`):
the value at the first matching key, if any. -/
def dictGet {κ α : Type} [DecidableEq κ] : List (κ × α) → κ → Option α
  | [], _ => none
  | (k0, v0) :: rest, k => if k0 = k then some v0 else dictGet rest k

/-- Model of Python `d.get(k, default)`. -/
def dictGetD {κ α : Type} [DecidableEq κ] (m : List (κ × α)) (k : κ) (d : α) : α :=
  (dictGet m k).getD d

theorem dictGet_dictSet_self {κ α : Type} [DecidableEq κ]
    (m : List (κ × α)) (k : κ) (v : α) : dictGet (dictSet m k v) k = some v := by
  induction m with
  | nil => simp [dictSet, dictGet]
  | cons p rest ih =>
    obtain ⟨k0, v0⟩ := p
    by_cases h : k0 = k
    · simp [dictSet, dictGet, h]
    · simp [dictSet, dictGet, h, ih]

theorem dictGet_dictSet_ne {κ α : Type} [DecidableEq κ]
    (m : List (κ × α)) (k k' : κ) (v : α) (hne : k' ≠ k) :
    dictGet (dictSet m k v) k' = dictGet m k' := by
  induction m with
  | nil => simp [dictSet, dictGet, hne.symm]
  | cons p rest ih =>
    obtain ⟨k0, v0⟩ := p
    by_cases h : k0 = k
    · subst h
      simp [dictSet, dictGet, hne.symm]
    · simp only [dictSet, if_neg h, dictGet]
      by_cases h' : k0 = k'
      · simp [h']
      · simp [h', ih]

/-- Python list indexing (`xs[i]`): non-negative indices below the length are
themselves, negative indices count from the end, anything else raises
`IndexError` (modelled as `none`). -/
def pyIdx (n : Nat) (i : Int) : Option Nat :=
  if 0 ≤ i then (if i < (n : Int) then some i.toNat else none)
  else if 0 ≤ i + (n : Int) then some (i + (n : Int)).toNat else none

/-- Computable floor of a rational number. -/
def ratFloor (q : ℚ) : ℤ := q.num.fdiv q.den

/-- Python `int()` on a rational value: truncation toward zero. -/
def ratTrunc (q : ℚ) : ℤ := q.num.tdiv q.den

/-- Rounding to the nearest integer, ties to the even integer.  This models
the Python function `round(x)` on exact values (on binary floats the tie cases can land
microscopically off an exact half; the embedding works with exact
rationals). -/
def roundHalfEven (q : ℚ) : ℤ :=
  let f := ratFloor q
  if q - (f : ℚ) < 1/2 then f
  else if 1/2 < q - (f : ℚ) then f + 1
  else if f % 2 = 0 then f else f + 1

/-- Python `round(x, 2)`: round to two decimal places, ties to even. -/
def round2 (q : ℚ) : ℚ := ((roundHalfEven (q * 100) : ℤ) : ℚ) / 100

namespace Resolve

/-- One clip record as assembled by `analyze_current_timeline` in
`src/davinci_resolve_mcp.py` (fields `track_type`, `track_index`, `start`,
`end`, `duration`, `name`; `end` is a Lean keyword, so the field is called
`end_`). -/
structure Clip where
  track_type : String
  track_index : Nat
  start : ℚ
  end_ : ℚ
  duration : ℚ
  name : String
  deriving Repr, DecidableEq, Inhabited

/-- The `cut_types` dictionary of `analyze_cut_patterns`.  Its keys are
exactly `hard_cut`, `gap` and `overlap`, so it is modelled as a record; a
missing key stands for the count 0. -/
structure CutCounts where
  hard_cut : Nat
  gap : Nat
  overlap : Nat
  deriving Repr, DecidableEq, Inhabited

/-- One step of the cut-type classification in `analyze_cut_patterns`
(lines 140-149 of `src/davinci_resolve_mcp.py`): for an adjacent pair
`(prev, curr)` of the sorted video clips, `gap = curr.start - prev.end`
selects exactly one of the three counters. -/
def recordPair (ct : CutCounts) (prev curr : Clip) : CutCounts :=
  if curr.start - prev.end_ = 0 then { ct with hard_cut := ct.hard_cut + 1 }
  else if 0 < curr.start - prev.end_ then { ct with gap := ct.gap + 1 }
  else { ct with overlap := ct.overlap + 1 }

/-- The list of adjacent pairs `(l[i-1], l[i])`, `i = 1 .. n-1`. -/
def adjacentPairs {α : Type} (l : List α) : List (α × α) := l.zip l.tail

/-- The clips of the timeline with `track_type == "video"`. -/
def videoClips (clips : List Clip) : List Clip :=
  clips.filter (fun c => c.track_type = "video")

/-- Ordering of clips by `start`, as used by
`video_clips.sort(key=lambda x: x["start"])`. -/
def clipLE (a b : Clip) : Prop := a.start ≤ b.start

instance : DecidableRel clipLE :=
  fun a b => inferInstanceAs (Decidable (a.start ≤ b.start))

/-- The video clips sorted by `start` ascending.  `List.insertionSort` with a
reflexive total order inserts each element in front of the run of elements
equal to it that were originally later, so like the Python method `list.sort`
it is stable. -/
def sortedVideoClips (clips : List Clip) : List Clip :=
  List.insertionSort clipLE (videoClips clips)

/-- The `cut_types` accumulated over all adjacent pairs of the sorted video
clips. -/
def cutTypesOf (clips : List Clip) : CutCounts :=
  (adjacentPairs (sortedVideoClips clips)).foldl
    (fun ct p => recordPair ct p.1 p.2) { hard_cut := 0, gap := 0, overlap := 0 }

/-- The `cut_lengths` list: the durations of the sorted video clips with
`duration > 0`, in sorted order. -/
def cutLengthsOf (clips : List Clip) : List ℚ :=
  (sortedVideoClips clips).filterMap
    (fun c => if 0 < c.duration then some c.duration else none)

/-- The statistics dictionary returned by `analyze_cut_patterns` when
`cut_lengths` is non-empty. -/
structure CutStats where
  total_cuts : Nat
  average_cut_length : ℚ
  shortest_cut : ℚ
  longest_cut : ℚ
  cut_types : CutCounts
  median_cut_length : ℚ
  editing_pace : String
  deriving Repr, DecidableEq, Inhabited

/-- `ResolveEditingTracker.analyze_cut_patterns`
(`src/davinci_resolve_mcp.py`, lines 119-162), as a function of the clip
list of the current timeline.  (Fetching that list from the host
application, and the host-API error dictionaries it can produce instead,
are outside the embedding; the error-dictionary result carrying the message
No cuts found is the `Except.error` case.) -/
def analyze_cut_patterns (clips : List Clip) : Except String CutStats :=
  let cut_types := cutTypesOf clips
  match cutLengthsOf clips with
  | [] => Except.error "No cuts found"
  | d :: ds =>
      Except.ok
        { total_cuts := (d :: ds).length
          average_cut_length := (d :: ds).sum / (((d :: ds).length : ℕ) : ℚ)
          shortest_cut := ds.foldl min d
          longest_cut := ds.foldl max d
          cut_types := cut_types
          median_cut_length :=
            (List.insertionSort (fun a b : ℚ => a ≤ b) (d :: ds)).getD
              ((d :: ds).length / 2) 0
          editing_pace :=
            if (d :: ds).sum / (((d :: ds).length : ℕ) : ℚ) < 120 then "fast" else "slow" }

/-- The guard `if page not in tracker.patterns["tool_usage"]` of the
`track_tool_usage` branch: create the inner dictionary of the page if the
page is missing. -/
def ensurePage (tool_usage : List (String × List (String × Nat)))
    (page : String) : List (String × List (String × Nat)) :=
  if (dictGet tool_usage page).isNone then dictSet tool_usage page [] else tool_usage

/-- The `track_tool_usage` branch of `handle_call_tool`
(`src/davinci_resolve_mcp.py`, lines 338-359), restricted to its effect on
`tracker.patterns["tool_usage"]`: ensure the inner dictionary of the page
exists, then increment the counter of the tool. -/
def record_tool_usage (tool_usage : List (String × List (String × Nat)))
    (page tool_name : String) : List (String × List (String × Nat)) :=
  dictSet (ensurePage tool_usage page) page
    (dictSet (dictGetD (ensurePage tool_usage page) page []) tool_name
      (dictGetD (dictGetD (ensurePage tool_usage page) page []) tool_name 0 + 1))

/-- The counter for one `(page, tool)` pair, a missing key counting as 0. -/
def toolCount (tool_usage : List (String × List (String × Nat)))
    (page tool_name : String) : Nat :=
  dictGetD (dictGetD tool_usage page []) tool_name 0

/-- One suggestion emitted by `suggest_workflow_optimization`.  The source
builds f-strings; the embedding keeps the parameters of each message as a
tagged value instead of rendering text. -/
inductive Suggestion where
  | shortcut (page tool : String) (count : Nat)
  | cutPage
  | paceBucket (average : ℚ) (word : String)
  | keepEditing
  deriving Repr, DecidableEq

/-- The bucket word picked from the list quick, medium, slow at index
`min(2, int(avg_cut/100))`.
The source only evaluates it under the guard `avg_cut > 0`, so the index is
non-negative there; out of range the embedding yields `""`. -/
def paceWord (avg : ℚ) : String :=
  ["quick", "medium", "slow"].getD (min 2 (ratTrunc (avg / 100))).toNat ""

/-- The loop over `tool_usage` in `suggest_workflow_optimization`: one
shortcut suggestion per `(page, tool)` with usage count above 10, in
iteration order. -/
def shortcutSuggestions (tool_usage : List (String × List (String × Nat))) :
    List Suggestion :=
  tool_usage.flatMap (fun pt =>
    pt.2.filterMap (fun tc =>
      if 10 < tc.2 then some (Suggestion.shortcut pt.1 tc.1 tc.2) else none))

/-- The timeline-based suggestions of `suggest_workflow_optimization`:
nothing when `analyze_cut_patterns` returned an error dictionary, otherwise
the Cut-page hint for a fast pace and the bucketed pacing hint for a
positive average. -/
def timelineSuggestions (timeline_patterns : Except String CutStats) : List Suggestion :=
  match timeline_patterns with
  | Except.error _ => []
  | Except.ok s =>
      (if s.editing_pace = "fast" then [Suggestion.cutPage] else []) ++
      (if 0 < s.average_cut_length then
         [Suggestion.paceBucket s.average_cut_length (paceWord s.average_cut_length)]
       else [])

/-- The `suggest_workflow_optimization` branch of `handle_call_tool`
(`src/davinci_resolve_mcp.py`, lines 397-425): the accumulated suggestions,
or the single fallback message when none accumulated. -/
def suggest_workflow_optimization (tool_usage : List (String × List (String × Nat)))
    (timeline_patterns : Except String CutStats) : List Suggestion :=
  if shortcutSuggestions tool_usage ++ timelineSuggestions timeline_patterns = [] then
    [Suggestion.keepEditing]
  else shortcutSuggestions tool_usage ++ timelineSuggestions timeline_patterns

end Resolve

namespace Watcher

/-- One entry of the `actions` list of a session, as built by
`EditingBehaviorTracker.track_action`.  The free-form `details` payload is
kept as an opaque string. -/
structure Action where
  timestamp : String
  action_type : String
  details : String
  deriving Repr, DecidableEq, Inhabited

/-- One entry of the `cuts` list of a session, as built by the `track_cut` branch
of `handle_call_tool`.  `duration` and `reason` come from
`arguments.get(...)` and are `None` when the caller omits them (the input
schema of the tool only requires `session_id` and `cut_type`). -/
structure Cut where
  cut_type : String
  duration : Option ℚ
  reason : Option String
  timestamp : String
  deriving Repr, DecidableEq, Inhabited

/-- One session record, as appended by
`EditingBehaviorTracker.track_session_start`. -/
structure Session where
  project : String
  start_time : String
  actions : List Action
  cuts : List Cut
  exports : List String
  deriving Repr, DecidableEq, Inhabited

/-- The state of an `EditingBehaviorTracker`: the in-memory
`patterns["sessions"]` list together with the persisted copy in
`editing_patterns.json` (`none` when the file has not been written).  Only
the `sessions` entry of the patterns dictionary is modelled; the other
top-level keys are never read or written by the embedded operations. -/
structure TrackerState where
  sessions : List Session
  saved : Option (List Session)
  deriving Repr, DecidableEq, Inhabited

/-- A tracker that has recorded nothing. -/
def emptyStore : TrackerState := { sessions := [], saved := none }

/-- `EditingBehaviorTracker.track_session_start`
(`src/editing_watcher.py`, lines 38-47): append a fresh session and return
`len(sessions) - 1`.  It does not call `save_patterns`. -/
def track_session_start (st : TrackerState) (project_path now : String) :
    TrackerState × Nat :=
  let sessions := st.sessions ++
    [{ project := project_path, start_time := now, actions := [], cuts := [], exports := [] }]
  ({ st with sessions := sessions }, sessions.length - 1)

/-- `EditingBehaviorTracker.track_action`
(`src/editing_watcher.py`, lines 49-56): guarded by
`session_id < len(sessions)`; inside the guard `sessions[session_id]` uses
Python list indexing, so a sufficiently negative id raises `IndexError`.
On success the action is appended and the whole store is persisted. -/
def track_action (st : TrackerState) (session_id : Int)
    (action_type details now : String) : Except PyErr TrackerState :=
  if session_id < (st.sessions.length : Int) then
    match pyIdx st.sessions.length session_id with
    | none => Except.error PyErr.indexError
    | some k =>
        let sessions := st.sessions.modify
          (fun s => { s with actions := s.actions ++
            [{ timestamp := now, action_type := action_type, details := details }] }) k
        Except.ok { sessions := sessions, saved := some sessions }
  else Except.ok st

/-- Appending one cut to the session at offset `k`. -/
def appendCutAt (sessions : List Session) (k : Nat) (c : Cut) : List Session :=
  sessions.modify (fun s => { s with cuts := s.cuts ++ [c] }) k

/-- The acknowledgement text built by the handler: Tracked, the cut type,
and the session id. -/
def ackText (cut_type : String) (session_id : Int) : String :=
  "Tracked " ++ cut_type ++ " cut for session " ++ toString session_id

/-- The `track_cut` branch of `handle_call_tool`
(`src/editing_watcher.py`, lines 235-251): build the cut entry, and only
under the guard `session_id < len(sessions)` append it, persist, and return
the acknowledgement; past the guard the branch falls through and the handler
returns Python `None` (modelled as `none`), leaving the store untouched. -/
def track_cut_tool (st : TrackerState) (session_id : Int) (cut_type : String)
    (duration : Option ℚ) (reason : Option String) (now : String) :
    Except PyErr (TrackerState × Option String) :=
  let cut_data : Cut :=
    { cut_type := cut_type, duration := duration, reason := reason, timestamp := now }
  if session_id < (st.sessions.length : Int) then
    match pyIdx st.sessions.length session_id with
    | none => Except.error PyErr.indexError
    | some k =>
        let sessions := appendCutAt st.sessions k cut_data
        Except.ok ({ sessions := sessions, saved := some sessions },
          some (ackText cut_type session_id))
  else Except.ok (st, none)

/-- One iteration of the cut loop in
`EditingBehaviorTracker.analyze_cut_patterns`
(`src/editing_watcher.py`, lines 63-70): `length = cut.get("duration", 0)`
yields the stored value, which is Python `None` when the cut was recorded
without a duration, and `None > 0` then raises `TypeError`; a positive
duration is appended to `cut_lengths`, and the counter of the cut type is
incremented either way. -/
def analyzeCutsStep (acc : List ℚ × List (String × Nat)) (cut : Cut) :
    Except PyErr (List ℚ × List (String × Nat)) :=
  match cut.duration with
  | none => Except.error PyErr.typeError
  | some length =>
      let cut_lengths := if 0 < length then acc.1 ++ [length] else acc.1
      Except.ok (cut_lengths, dictSet acc.2 cut.cut_type (dictGetD acc.2 cut.cut_type 0 + 1))

/-- The dictionary returned by `EditingBehaviorTracker.analyze_cut_patterns`
when cut lengths were found. -/
structure CutAnalysis where
  average_cut_length : ℚ
  total_cuts : Nat
  cut_type_preferences : List (String × Nat)
  suggested_cut_length : ℚ
  deriving Repr, DecidableEq, Inhabited

/-- `EditingBehaviorTracker.analyze_cut_patterns`
(`src/editing_watcher.py`, lines 58-80): iterate over the cuts of every
session ever recorded, then either return the aggregate statistics or, when
no positive duration was collected, the empty dictionary (modelled as
`none`). -/
def analyze_cut_patterns (st : TrackerState) : Except PyErr (Option CutAnalysis) :=
  ((st.sessions.flatMap (fun s => s.cuts)).foldlM analyzeCutsStep ([], [])).bind
    (fun acc =>
      match acc.1 with
      | [] => Except.ok none
      | d :: ds =>
          Except.ok (some
            { average_cut_length := (d :: ds).sum / (((d :: ds).length : ℕ) : ℚ)
              total_cuts := (d :: ds).length
              cut_type_preferences := acc.2
              suggested_cut_length :=
                round2 ((d :: ds).sum / (((d :: ds).length : ℕ) : ℚ)) }))

/-- The cuts of all sessions ever recorded, flattened in order. -/
def allCuts (st : TrackerState) : List Cut := st.sessions.flatMap (fun s => s.cuts)

/-- The positive durations among all recorded cuts, in order. -/
def posCutLengths (st : TrackerState) : List ℚ :=
  (allCuts st).filterMap (fun c => c.duration.bind (fun d => if 0 < d then some d else none))

end Watcher

/-! Concrete inputs used by the claim theorems, their witnesses and
counterexamples. -/

/-- The three-clip scenario of the specification (§8, property 8). -/
def specClips : List Resolve.Clip :=
  [ { track_type := "video", track_index := 1, start := 0, end_ := 100, duration := 100, name := "" },
    { track_type := "video", track_index := 1, start := 100, end_ := 250, duration := 150, name := "" },
    { track_type := "video", track_index := 1, start := 240, end_ := 300, duration := 60, name := "" } ]

/-- Four video clips with durations 10, 20, 30, 40. -/
def fourClips : List Resolve.Clip :=
  [ { track_type := "video", track_index := 1, start := 0, end_ := 10, duration := 10, name := "" },
    { track_type := "video", track_index := 1, start := 10, end_ := 30, duration := 20, name := "" },
    { track_type := "video", track_index := 1, start := 30, end_ := 60, duration := 30, name := "" },
    { track_type := "video", track_index := 1, start := 60, end_ := 100, duration := 40, name := "" } ]

/-- A single video clip whose duration is exactly the pace threshold 120. -/
def clip120 : Resolve.Clip :=
  { track_type := "video", track_index := 1, start := 0, end_ := 120, duration := 120, name := "" }

/-- Three video clips whose middle clip has duration 0: it contributes no cut
length but still forms two adjacent pairs. -/
def zeroMidClips : List Resolve.Clip :=
  [ { track_type := "video", track_index := 1, start := 0, end_ := 100, duration := 100, name := "" },
    { track_type := "video", track_index := 1, start := 100, end_ := 100, duration := 0, name := "" },
    { track_type := "video", track_index := 1, start := 120, end_ := 150, duration := 50, name := "" } ]

/-- A tool-usage table with one tool used 11 times. -/
def usage11 : List (String × List (String × Nat)) := [("color", [("Qualifier", 11)])]

/-- A store holding exactly one (fresh) session. -/
def oneSessionStore : Watcher.TrackerState :=
  { sessions := [{ project := "p", start_time := "t0",
                   actions := [], cuts := [], exports := [] }],
    saved := none }

/-- A store holding one session with one cut of duration 5 seconds. -/
def fiveCutStore : Watcher.TrackerState :=
  { sessions := [{ project := "p", start_time := "t0", actions := [],
                   cuts := [{ cut_type := "hard_cut", duration := some 5,
                              reason := none, timestamp := "t1" }],
                   exports := [] }],
    saved := none }

/-- A store holding one session with one cut recorded without a duration
(the `track_cut` tool allows omitting `duration`). -/
def noneDurationStore : Watcher.TrackerState :=
  { sessions := [{ project := "p", start_time := "t0", actions := [],
                   cuts := [{ cut_type := "fade", duration := none,
                              reason := none, timestamp := "t1" }],
                   exports := [] }],
    saved := none }

/-! Helper lemmas about the cut-type fold of the Snapshot Analyzer. -/

theorem foldl_recordPair_hard (ps : List (Resolve.Clip × Resolve.Clip))
    (ct : Resolve.CutCounts) :
    (ps.foldl (fun a p => Resolve.recordPair a p.1 p.2) ct).hard_cut
      = ct.hard_cut + ps.countP (fun p => decide (p.2.start - p.1.end_ = 0)) := by
  induction ps generalizing ct with
  | nil => simp
  | cons p ps ih =>
      rw [List.foldl_cons, ih, List.countP_cons]
      unfold Resolve.recordPair
      by_cases h0 : p.2.start - p.1.end_ = 0
      · simp [h0]; omega
      · by_cases h1 : 0 < p.2.start - p.1.end_
        · simp [h0, h1]
        · simp [h0, h1]

theorem foldl_recordPair_gap (ps : List (Resolve.Clip × Resolve.Clip))
    (ct : Resolve.CutCounts) :
    (ps.foldl (fun a p => Resolve.recordPair a p.1 p.2) ct).gap
      = ct.gap + ps.countP (fun p => decide (0 < p.2.start - p.1.end_)) := by
  induction ps generalizing ct with
  | nil => simp
  | cons p ps ih =>
      rw [List.foldl_cons, ih, List.countP_cons]
      unfold Resolve.recordPair
      by_cases h0 : p.2.start - p.1.end_ = 0
      · simp [h0]
      · by_cases h1 : 0 < p.2.start - p.1.end_
        · simp [h0, h1]; omega
        · simp [h0, h1]

theorem foldl_recordPair_overlap (ps : List (Resolve.Clip × Resolve.Clip))
    (ct : Resolve.CutCounts) :
    (ps.foldl (fun a p => Resolve.recordPair a p.1 p.2) ct).overlap
      = ct.overlap + ps.countP (fun p => decide (p.2.start - p.1.end_ < 0)) := by
  induction ps generalizing ct with
  | nil => simp
  | cons p ps ih =>
      rw [List.foldl_cons, ih, List.countP_cons]
      unfold Resolve.recordPair
      by_cases h0 : p.2.start - p.1.end_ = 0
      · simp [h0]
      · by_cases h1 : 0 < p.2.start - p.1.end_
        · simp [h0, h1, lt_asymm h1]
        · have hlt : p.2.start - p.1.end_ < 0 := lt_of_le_of_ne (not_lt.mp h1) h0
          simp [h0, h1, hlt]; omega

theorem foldl_recordPair_total (ps : List (Resolve.Clip × Resolve.Clip))
    (ct : Resolve.CutCounts) :
    (ps.foldl (fun a p => Resolve.recordPair a p.1 p.2) ct).gap
      + (ps.foldl (fun a p => Resolve.recordPair a p.1 p.2) ct).hard_cut
      + (ps.foldl (fun a p => Resolve.recordPair a p.1 p.2) ct).overlap
      = ct.gap + ct.hard_cut + ct.overlap + ps.length := by
  induction ps generalizing ct with
  | nil => simp
  | cons p ps ih =>
      rw [List.foldl_cons, List.length_cons, ih]
      unfold Resolve.recordPair
      split_ifs <;> simp <;> omega

/-- Claim C1: in `analyze_cut_patterns`, each adjacent pair `(prev, curr)` of
the video clips sorted by `start` is classified by `gap = curr.start -
prev.end` as `hard_cut` (gap = 0), `gap` (gap > 0) or `overlap` (gap < 0),
exactly one counter per pair, so for a non-empty list of `n` video clips
`cut_types.gap + cut_types.hard_cut + cut_types.overlap = n - 1`. -/
theorem claim_C1 (clips : List Resolve.Clip)
    (h : Resolve.videoClips clips ≠ []) :
    (Resolve.cutTypesOf clips).hard_cut
        = (Resolve.adjacentPairs (Resolve.sortedVideoClips clips)).countP
            (fun p => decide (p.2.start - p.1.end_ = 0)) ∧
    (Resolve.cutTypesOf clips).gap
        = (Resolve.adjacentPairs (Resolve.sortedVideoClips clips)).countP
            (fun p => decide (0 < p.2.start - p.1.end_)) ∧
    (Resolve.cutTypesOf clips).overlap
        = (Resolve.adjacentPairs (Resolve.sortedVideoClips clips)).countP
            (fun p => decide (p.2.start - p.1.end_ < 0)) ∧
    (Resolve.cutTypesOf clips).gap + (Resolve.cutTypesOf clips).hard_cut
        + (Resolve.cutTypesOf clips).overlap
      = (Resolve.videoClips clips).length - 1 := by
  have hlen : (Resolve.sortedVideoClips clips).length = (Resolve.videoClips clips).length :=
    (List.perm_insertionSort _ _).length_eq
  have hpairs : (Resolve.adjacentPairs (Resolve.sortedVideoClips clips)).length
      = (Resolve.videoClips clips).length - 1 := by
    unfold Resolve.adjacentPairs
    rw [List.length_zip, List.length_tail, hlen]
    omega
  refine ⟨?_, ?_, ?_, ?_⟩
  · unfold Resolve.cutTypesOf
    rw [foldl_recordPair_hard]
    simp
  · unfold Resolve.cutTypesOf
    rw [foldl_recordPair_gap]
    simp
  · unfold Resolve.cutTypesOf
    rw [foldl_recordPair_overlap]
    simp
  · unfold Resolve.cutTypesOf
    rw [foldl_recordPair_total, hpairs]
    simp

theorem claim_C1_witness :
    Resolve.videoClips specClips ≠ [] ∧
    (Resolve.cutTypesOf specClips).gap + (Resolve.cutTypesOf specClips).hard_cut
        + (Resolve.cutTypesOf specClips).overlap
      = (Resolve.videoClips specClips).length - 1 :=
  ⟨by decide, (claim_C1 specClips (by decide)).2.2.2⟩

/-- Inversion of a successful `analyze_cut_patterns`: the median, average and
pace fields in terms of the cut-length list. -/
theorem analyze_inv (clips : List Resolve.Clip) (s : Resolve.CutStats)
    (h : Resolve.analyze_cut_patterns clips = Except.ok s) :
    s.median_cut_length
        = (List.insertionSort (fun a b : ℚ => a ≤ b) (Resolve.cutLengthsOf clips)).getD
            ((Resolve.cutLengthsOf clips).length / 2) 0 ∧
    s.average_cut_length
        = (Resolve.cutLengthsOf clips).sum / (((Resolve.cutLengthsOf clips).length : ℕ) : ℚ) ∧
    s.editing_pace = (if s.average_cut_length < 120 then "fast" else "slow") := by
  unfold Resolve.analyze_cut_patterns at h
  cases hcl : Resolve.cutLengthsOf clips with
  | nil => rw [hcl] at h; simp at h
  | cons d ds =>
      rw [hcl] at h
      simp only [Except.ok.injEq] at h
      subst h
      refine ⟨rfl, rfl, ?_⟩
      simp

/-- Claim C2: for every successful analysis the median is the floor-index
pick `sorted(cut_lengths)[len // 2]`; in particular for durations
`[10, 20, 30, 40]` the median is `30`, not the textbook average `25`. -/
theorem claim_C2 :
    (∀ (clips : List Resolve.Clip) (s : Resolve.CutStats),
        Resolve.analyze_cut_patterns clips = Except.ok s →
        s.median_cut_length
          = (List.insertionSort (fun a b : ℚ => a ≤ b) (Resolve.cutLengthsOf clips)).getD
              ((Resolve.cutLengthsOf clips).length / 2) 0) ∧
    (Resolve.analyze_cut_patterns fourClips).toOption.map
        (fun s => s.median_cut_length) = some 30 := by
  refine ⟨?_, ?_⟩
  · intro clips s h
    exact (analyze_inv clips s h).1
  · decide

theorem claim_C2_witness :
    Resolve.analyze_cut_patterns fourClips
        = Except.ok ((Resolve.analyze_cut_patterns fourClips).toOption.getD default) ∧
    ((Resolve.analyze_cut_patterns fourClips).toOption.getD default).median_cut_length
      = (List.insertionSort (fun a b : ℚ => a ≤ b) (Resolve.cutLengthsOf fourClips)).getD
          ((Resolve.cutLengthsOf fourClips).length / 2) 0 :=
  ⟨rfl, claim_C2.1 fourClips _ rfl⟩

/-- Claim C3: for every successful analysis `editing_pace = "fast"` exactly
when `average_cut_length < 120`; a single clip of duration exactly 120 has
average 120 and pace `"slow"`. -/
theorem claim_C3 :
    (∀ (clips : List Resolve.Clip) (s : Resolve.CutStats),
        Resolve.analyze_cut_patterns clips = Except.ok s →
        (s.editing_pace = "fast" ↔ s.average_cut_length < 120)) ∧
    (Resolve.analyze_cut_patterns [clip120]).toOption.map
        (fun s => s.average_cut_length) = some 120 ∧
    (Resolve.analyze_cut_patterns [clip120]).toOption.map
        (fun s => s.editing_pace) = some "slow" := by
  have hcl : Resolve.cutLengthsOf [clip120] = [120] := by decide
  refine ⟨?_, ?_, ?_⟩
  · intro clips s h
    obtain ⟨-, -, hpace⟩ := analyze_inv clips s h
    rw [hpace]
    split_ifs with hlt
    · exact iff_of_true rfl hlt
    · exact iff_of_false (by decide) hlt
  · have h2 : (List.sum [(120 : ℚ)]) / (((List.length [(120 : ℚ)] : ℕ)) : ℚ) = 120 := by
      norm_num
    unfold Resolve.analyze_cut_patterns
    rw [hcl]
    simp [Except.toOption, h2]
  · have h3 : ¬ ((List.sum [(120 : ℚ)]) / (((List.length [(120 : ℚ)] : ℕ)) : ℚ) < 120) := by
      norm_num
    unfold Resolve.analyze_cut_patterns
    rw [hcl]
    simp [Except.toOption, h3]

theorem claim_C3_witness :
    Resolve.analyze_cut_patterns [clip120]
        = Except.ok ((Resolve.analyze_cut_patterns [clip120]).toOption.getD default) ∧
    (((Resolve.analyze_cut_patterns [clip120]).toOption.getD default).editing_pace = "fast"
      ↔ ((Resolve.analyze_cut_patterns [clip120]).toOption.getD default).average_cut_length
          < 120) :=
  ⟨rfl, claim_C3.1 [clip120] _ rfl⟩

theorem filterMap_pos_eq (l : List Resolve.Clip) :
    l.filterMap (fun c => if 0 < c.duration then some c.duration else none)
      = (l.filter (fun c => decide (0 < c.duration))).map (fun c => c.duration) := by
  induction l with
  | nil => rfl
  | cons c l ih =>
      by_cases hc : 0 < c.duration
      · simp [List.filterMap_cons, List.filter_cons, hc, ih]
      · simp [List.filterMap_cons, List.filter_cons, hc, ih]

/-- Claim C7: the cut-length list holds exactly the (sorted) video clips of
positive duration; `analyze_cut_patterns` fails with `"No cuts found"`
exactly when no video clip has positive duration; and a zero-duration clip
still takes part in the adjacency classification (three clips, middle one of
duration 0: two classified pairs, but only two cut lengths). -/
theorem claim_C7 (clips : List Resolve.Clip) :
    Resolve.cutLengthsOf clips
        = ((Resolve.sortedVideoClips clips).filter (fun c => decide (0 < c.duration))).map
            (fun c => c.duration) ∧
    (Resolve.analyze_cut_patterns clips = Except.error "No cuts found"
        ↔ ∀ c ∈ clips, c.track_type = "video" → ¬ 0 < c.duration) ∧
    (Resolve.analyze_cut_patterns zeroMidClips).toOption.map
        (fun s => (s.total_cuts, s.cut_types))
      = some (2, { hard_cut := 1, gap := 1, overlap := 0 }) := by
  have hfm : Resolve.cutLengthsOf clips
      = ((Resolve.sortedVideoClips clips).filter (fun c => decide (0 < c.duration))).map
          (fun c => c.duration) := by
    unfold Resolve.cutLengthsOf
    exact filterMap_pos_eq _
  have h1 : Resolve.analyze_cut_patterns clips = Except.error "No cuts found"
      ↔ Resolve.cutLengthsOf clips = [] := by
    unfold Resolve.analyze_cut_patterns
    cases hcl : Resolve.cutLengthsOf clips with
    | nil => simp
    | cons d ds => simp
  have h2 : Resolve.cutLengthsOf clips = []
      ↔ ∀ c ∈ clips, c.track_type = "video" → ¬ 0 < c.duration := by
    rw [hfm, List.map_eq_nil_iff, List.filter_eq_nil_iff]
    constructor
    · intro hf c hc hv
      have hc2 : c ∈ Resolve.sortedVideoClips clips := by
        unfold Resolve.sortedVideoClips
        rw [List.mem_insertionSort]
        unfold Resolve.videoClips
        rw [List.mem_filter]
        exact ⟨hc, by simp [hv]⟩
      simpa using hf c hc2
    · intro hall c hc
      have hc2 : c ∈ clips ∧ c.track_type = "video" := by
        unfold Resolve.sortedVideoClips at hc
        rw [List.mem_insertionSort] at hc
        unfold Resolve.videoClips at hc
        rw [List.mem_filter] at hc
        exact ⟨hc.1, by simpa using hc.2⟩
      simpa using hall c hc2.1 hc2.2
  have hsorted : Resolve.sortedVideoClips zeroMidClips = zeroMidClips := by decide
  have hct : Resolve.cutTypesOf zeroMidClips
      = { hard_cut := 1, gap := 1, overlap := 0 } := by
    unfold Resolve.cutTypesOf Resolve.adjacentPairs
    rw [hsorted]
    norm_num [zeroMidClips, Resolve.recordPair]
  have hcl0 : Resolve.cutLengthsOf zeroMidClips = [100, 50] := by decide
  refine ⟨hfm, h1.trans h2, ?_⟩
  unfold Resolve.analyze_cut_patterns
  rw [hcl0, hct]
  simp [Except.toOption]

theorem claim_C7_witness :
    Resolve.cutLengthsOf specClips
      = ((Resolve.sortedVideoClips specClips).filter
          (fun c => decide (0 < c.duration))).map (fun c => c.duration) :=
  (claim_C7 specClips).1

/-! Helper lemma for the tool-usage counters. -/

theorem toolCount_record (u : List (String × List (String × Nat))) (page tool p t : String) :
    Resolve.toolCount (Resolve.record_tool_usage u page tool) p t =
      if p = page ∧ t = tool then Resolve.toolCount u p t + 1
      else Resolve.toolCount u p t := by
  have hA : dictGet (Resolve.ensurePage u page) page = some (dictGetD u page []) := by
    unfold Resolve.ensurePage
    cases hg : dictGet u page with
    | none => simp [hg, dictGet_dictSet_self, dictGetD]
    | some v => simp [hg, dictGetD]
  have hB : ∀ q, q ≠ page → dictGet (Resolve.ensurePage u page) q = dictGet u q := by
    intro q hq
    unfold Resolve.ensurePage
    cases hg : dictGet u page with
    | none => simp [hg, dictGet_dictSet_ne _ _ _ _ hq]
    | some v => simp [hg]
  unfold Resolve.record_tool_usage Resolve.toolCount
  by_cases hp : p = page
  · subst hp
    by_cases ht : t = tool
    · subst ht
      simp [dictGet_dictSet_self, hA, dictGetD]
    · simp [dictGet_dictSet_self, dictGet_dictSet_ne _ _ _ _ ht, hA, ht, dictGetD]
  · simp [dictGet_dictSet_ne _ _ _ _ hp, hB p hp, hp, dictGetD]

/-- Claim C9: `record_tool_usage` increments `counters[page][tool]` by
exactly 1, never decreases any counter, and three calls for
`("color", "Qualifier")` on a fresh store yield the count 3. -/
theorem claim_C9 (u : List (String × List (String × Nat))) (page tool : String) :
    Resolve.toolCount (Resolve.record_tool_usage u page tool) page tool
        = Resolve.toolCount u page tool + 1 ∧
    (∀ p t, Resolve.toolCount u p t
        ≤ Resolve.toolCount (Resolve.record_tool_usage u page tool) p t) ∧
    Resolve.toolCount
        (Resolve.record_tool_usage
          (Resolve.record_tool_usage
            (Resolve.record_tool_usage [] "color" "Qualifier") "color" "Qualifier")
          "color" "Qualifier") "color" "Qualifier" = 3 := by
  refine ⟨?_, ?_, ?_⟩
  · rw [toolCount_record]
    simp
  · intro p t
    rw [toolCount_record]
    split_ifs <;> omega
  · decide

theorem claim_C9_witness :
    Resolve.toolCount
        (Resolve.record_tool_usage
          (Resolve.record_tool_usage
            (Resolve.record_tool_usage [] "color" "Qualifier") "color" "Qualifier")
          "color" "Qualifier") "color" "Qualifier" = 3 :=
  (claim_C9 [] "color" "Qualifier").2.2

/-- Claim C5, counterexample: `-2` is out of range of the one-session list
(its valid Python indices are `0` and `-1`), yet `track_action` is not a
silent no-op there: the guard `session_id < len(sessions)` passes and
`sessions[-2]` raises `IndexError`. -/
theorem claim_C5_counterexample :
    Watcher.track_action oneSessionStore (-2) "workflow_step" "d" "t1"
      = Except.error PyErr.indexError := rfl

/-- Claim C5 (amended): for every `session_id` at or above the number of
sessions, `track_action` is a silent no-op: the state, including the
persisted copy, is returned unchanged.  (Out-of-range negative ids below
`-len(sessions)` instead raise `IndexError`, and negative ids in
`[-len, -1]` modify the session at `len + session_id`, per Python list
indexing.) -/
theorem claim_C5 (st : Watcher.TrackerState) (session_id : Int)
    (action_type details now : String)
    (h : (st.sessions.length : Int) ≤ session_id) :
    Watcher.track_action st session_id action_type details now = Except.ok st := by
  unfold Watcher.track_action
  rw [if_neg (not_lt.mpr h)]

theorem claim_C5_witness :
    ((oneSessionStore.sessions.length : Int) ≤ 5) ∧
    Watcher.track_action oneSessionStore 5 "workflow_step" "d" "t1"
      = Except.ok oneSessionStore :=
  ⟨by decide, claim_C5 oneSessionStore 5 "workflow_step" "d" "t1" (by decide)⟩

/-- Claim C6: `track_session_start` returns the new list length minus one
(the old length); starting two sessions on an empty store yields ids 0 and
1, and recording an action against id 1 leaves session 0 untouched (its
full record is still the fresh session for the first project). -/
theorem claim_C6 :
    (∀ (st : Watcher.TrackerState) (p now : String),
        (Watcher.track_session_start st p now).2 = st.sessions.length ∧
        (Watcher.track_session_start st p now).1.sessions.length
          = st.sessions.length + 1) ∧
    (∀ p1 t1 p2 t2 aty ad anow : String,
        (Watcher.track_session_start Watcher.emptyStore p1 t1).2 = 0 ∧
        (Watcher.track_session_start
            (Watcher.track_session_start Watcher.emptyStore p1 t1).1 p2 t2).2 = 1 ∧
        Watcher.track_action
            (Watcher.track_session_start
              (Watcher.track_session_start Watcher.emptyStore p1 t1).1 p2 t2).1
            1 aty ad anow
          = Except.ok
              { sessions :=
                  [ { project := p1, start_time := t1, actions := [], cuts := [],
                      exports := [] },
                    { project := p2, start_time := t2,
                      actions := [{ timestamp := anow, action_type := aty, details := ad }],
                      cuts := [], exports := [] } ],
                saved := some
                  [ { project := p1, start_time := t1, actions := [], cuts := [],
                      exports := [] },
                    { project := p2, start_time := t2,
                      actions := [{ timestamp := anow, action_type := aty, details := ad }],
                      cuts := [], exports := [] } ] }) := by
  constructor
  · intro st p now
    constructor
    · unfold Watcher.track_session_start
      simp
    · unfold Watcher.track_session_start
      simp
  · intro p1 t1 p2 t2 aty ad anow
    exact ⟨rfl, rfl, rfl⟩

theorem claim_C6_witness :
    (Watcher.track_session_start Watcher.emptyStore "proj1" "t1").2 = 0 ∧
    (Watcher.track_session_start
        (Watcher.track_session_start Watcher.emptyStore "proj1" "t1").1 "proj2" "t2").2 = 1 ∧
    Watcher.track_action
        (Watcher.track_session_start
          (Watcher.track_session_start Watcher.emptyStore "proj1" "t1").1 "proj2" "t2").1
        1 "workflow_step" "d" "t3"
      = Except.ok
          { sessions :=
              [ { project := "proj1", start_time := "t1", actions := [], cuts := [],
                  exports := [] },
                { project := "proj2", start_time := "t2",
                  actions := [{ timestamp := "t3", action_type := "workflow_step",
                                details := "d" }],
                  cuts := [], exports := [] } ],
            saved := some
              [ { project := "proj1", start_time := "t1", actions := [], cuts := [],
                  exports := [] },
                { project := "proj2", start_time := "t2",
                  actions := [{ timestamp := "t3", action_type := "workflow_step",
                                details := "d" }],
                  cuts := [], exports := [] } ] } :=
  claim_C6.2 "proj1" "t1" "proj2" "t2" "workflow_step" "d" "t3"

/-- Claim C10: when `track_cut` is invoked with a `session_id` at or above
the number of sessions, the handler returns Python `None` and the store is
untouched; for an in-range id it appends the cut entry to that session,
persists, and returns the acknowledgement text. -/
theorem claim_C10 (st : Watcher.TrackerState) (session_id : Int) (ct : String)
    (dur : Option ℚ) (reason : Option String) (now : String) :
    ((st.sessions.length : Int) ≤ session_id →
        Watcher.track_cut_tool st session_id ct dur reason now
          = Except.ok (st, none)) ∧
    (∀ k : Nat, session_id = (k : Int) → k < st.sessions.length →
        Watcher.track_cut_tool st session_id ct dur reason now
          = Except.ok
              ({ sessions := Watcher.appendCutAt st.sessions k
                    { cut_type := ct, duration := dur, reason := reason, timestamp := now },
                 saved := some (Watcher.appendCutAt st.sessions k
                    { cut_type := ct, duration := dur, reason := reason, timestamp := now }) },
               some (Watcher.ackText ct session_id)) ∧
        (Watcher.appendCutAt st.sessions k
            { cut_type := ct, duration := dur, reason := reason, timestamp := now })[k]?
          = (st.sessions[k]?).map
              (fun s => { s with cuts := s.cuts ++
                [{ cut_type := ct, duration := dur, reason := reason,
                   timestamp := now }] })) := by
  constructor
  · intro h
    unfold Watcher.track_cut_tool
    rw [if_neg (not_lt.mpr h)]
  · intro k hk hlt
    subst hk
    have hc : ((k : Nat) : Int) < (st.sessions.length : Int) := by exact_mod_cast hlt
    have hpy : pyIdx st.sessions.length ((k : Nat) : Int) = some k := by
      unfold pyIdx
      rw [if_pos (Int.natCast_nonneg k), if_pos hc]
      simp
    constructor
    · simp [Watcher.track_cut_tool, hpy, hc]
    · unfold Watcher.appendCutAt
      rw [List.getElem?_modify]
      simp

theorem claim_C10_witness :
    Watcher.track_cut_tool oneSessionStore 3 "hard_cut" none none "t1"
        = Except.ok (oneSessionStore, none) ∧
    (Watcher.track_cut_tool oneSessionStore 0 "hard_cut" none none "t1"
        = Except.ok
            ({ sessions := Watcher.appendCutAt oneSessionStore.sessions 0
                  { cut_type := "hard_cut", duration := none, reason := none,
                    timestamp := "t1" },
               saved := some (Watcher.appendCutAt oneSessionStore.sessions 0
                  { cut_type := "hard_cut", duration := none, reason := none,
                    timestamp := "t1" }) },
             some (Watcher.ackText "hard_cut" 0)) ∧
      (Watcher.appendCutAt oneSessionStore.sessions 0
          { cut_type := "hard_cut", duration := none, reason := none,
            timestamp := "t1" })[0]?
        = (oneSessionStore.sessions[0]?).map
            (fun s => { s with cuts := s.cuts ++
              [{ cut_type := "hard_cut", duration := none, reason := none,
                 timestamp := "t1" }] })) :=
  ⟨(claim_C10 oneSessionStore 3 "hard_cut" none none "t1").1 (by decide),
   (claim_C10 oneSessionStore 0 "hard_cut" none none "t1").2 0 rfl (by decide)⟩

theorem except_bind_ok {ε α β : Type} (x : α) (g : α → Except ε β) :
    (Except.ok (ε := ε) x).bind g = g x := rfl

/-- Characterization of the cut loop of the Pattern Store aggregation when
every cut carries a duration: it succeeds and collects exactly the positive
durations, in order. -/
theorem foldlM_analyzeCutsStep (cuts : List Watcher.Cut) :
    ∀ (ls : List ℚ) (fs : List (String × Nat)),
    (∀ c ∈ cuts, (c.duration).isSome) →
    ∃ fs2, cuts.foldlM Watcher.analyzeCutsStep (ls, fs)
      = Except.ok (ls ++ cuts.filterMap
          (fun c => c.duration.bind (fun d => if 0 < d then some d else none)), fs2) := by
  induction cuts with
  | nil =>
      intro ls fs _
      refine ⟨fs, ?_⟩
      simp only [List.foldlM_nil, List.filterMap_nil, List.append_nil]
      rfl
  | cons c cuts ih =>
      intro ls fs h
      obtain ⟨d, hd⟩ := Option.isSome_iff_exists.mp (h c (List.mem_cons_self c cuts))
      have hstep : Watcher.analyzeCutsStep (ls, fs) c
          = Except.ok ((if 0 < d then ls ++ [d] else ls),
              dictSet fs c.cut_type (dictGetD fs c.cut_type 0 + 1)) := by
        unfold Watcher.analyzeCutsStep
        rw [hd]
      obtain ⟨fs2, hrest⟩ := ih (if 0 < d then ls ++ [d] else ls)
        (dictSet fs c.cut_type (dictGetD fs c.cut_type 0 + 1))
        (fun x hx => h x (List.mem_cons_of_mem _ hx))
      refine ⟨fs2, ?_⟩
      have hred : (c :: cuts).foldlM Watcher.analyzeCutsStep (ls, fs)
          = cuts.foldlM Watcher.analyzeCutsStep ((if 0 < d then ls ++ [d] else ls),
              dictSet fs c.cut_type (dictGetD fs c.cut_type 0 + 1)) := by
        rw [List.foldlM_cons, hstep]
        rfl
      rw [hred, hrest]
      by_cases hpos : 0 < d
      · simp [List.filterMap_cons, hd, hpos]
      · simp [List.filterMap_cons, hd, hpos]

/-- Claim C4 (amended): provided every recorded cut carries a numeric
duration, the Pattern Store aggregation flattens cut durations across all
sessions ever recorded, returns the empty result exactly when no positive
duration exists (in particular over zero recorded cuts, and never divides by
zero), and otherwise reports `average = sum of positive durations / count`
and `suggested_cut_length = round(average, 2)`.  (A cut recorded without a
duration instead makes it raise `TypeError`; see the counterexample.) -/
theorem claim_C4 (st : Watcher.TrackerState)
    (h : ∀ c ∈ Watcher.allCuts st, (c.duration).isSome) :
    (Watcher.analyze_cut_patterns st = Except.ok none
        ↔ Watcher.posCutLengths st = []) ∧
    (∀ r, Watcher.analyze_cut_patterns st = Except.ok (some r) →
        r.total_cuts = (Watcher.posCutLengths st).length ∧
        r.average_cut_length
          = (Watcher.posCutLengths st).sum
              / (((Watcher.posCutLengths st).length : ℕ) : ℚ) ∧
        r.suggested_cut_length = round2 r.average_cut_length) ∧
    (Watcher.posCutLengths st ≠ [] →
        ∃ r, Watcher.analyze_cut_patterns st = Except.ok (some r) ∧
          r.total_cuts = (Watcher.posCutLengths st).length ∧
          r.average_cut_length
            = (Watcher.posCutLengths st).sum
                / (((Watcher.posCutLengths st).length : ℕ) : ℚ) ∧
          r.suggested_cut_length = round2 r.average_cut_length) := by
  obtain ⟨fs2, hfold⟩ := foldlM_analyzeCutsStep (Watcher.allCuts st) [] [] h
  rw [List.nil_append] at hfold
  have hfold2 : (st.sessions.flatMap (fun s => s.cuts)).foldlM
      Watcher.analyzeCutsStep ([], []) = Except.ok (Watcher.posCutLengths st, fs2) := by
    unfold Watcher.allCuts at hfold
    unfold Watcher.posCutLengths Watcher.allCuts
    exact hfold
  unfold Watcher.analyze_cut_patterns
  rw [hfold2, except_bind_ok]
  cases hpos : Watcher.posCutLengths st with
  | nil =>
      refine ⟨by simp, ?_, ?_⟩
      · intro r hr
        simp at hr
      · intro hne
        exact absurd rfl hne
  | cons d ds =>
      refine ⟨by simp, ?_, ?_⟩
      · intro r hr
        simp only [Except.ok.injEq, Option.some.injEq] at hr
        subst hr
        exact ⟨rfl, rfl, rfl⟩
      · intro _
        exact ⟨_, rfl, rfl, rfl, rfl⟩

/-- Claim C4, counterexample: with one cut recorded without a duration (the
`track_cut` schema allows that), the aggregation neither returns statistics
nor an empty result: `cut.get("duration", 0)` is `None` and `None > 0`
raises `TypeError`. -/
theorem claim_C4_counterexample :
    Watcher.analyze_cut_patterns noneDurationStore = Except.error PyErr.typeError := rfl

theorem claim_C4_witness :
    Watcher.analyze_cut_patterns Watcher.emptyStore = Except.ok none ∧
    Watcher.posCutLengths fiveCutStore ≠ [] ∧
    Watcher.analyze_cut_patterns fiveCutStore
        = Except.ok (some
            (((Watcher.analyze_cut_patterns fiveCutStore).toOption.getD none).getD default)) ∧
    (((Watcher.analyze_cut_patterns fiveCutStore).toOption.getD none).getD default).total_cuts
        = (Watcher.posCutLengths fiveCutStore).length ∧
    (((Watcher.analyze_cut_patterns fiveCutStore).toOption.getD none).getD
          default).average_cut_length
        = (Watcher.posCutLengths fiveCutStore).sum
            / (((Watcher.posCutLengths fiveCutStore).length : ℕ) : ℚ) ∧
    (((Watcher.analyze_cut_patterns fiveCutStore).toOption.getD none).getD
          default).suggested_cut_length
        = round2 (((Watcher.analyze_cut_patterns fiveCutStore).toOption.getD none).getD
            default).average_cut_length :=
  ⟨(claim_C4 Watcher.emptyStore (by decide)).1.mpr rfl,
   by decide,
   rfl,
   ((claim_C4 fiveCutStore (by decide)).2.1 _ rfl).1,
   ((claim_C4 fiveCutStore (by decide)).2.1 _ rfl).2.1,
   ((claim_C4 fiveCutStore (by decide)).2.1 _ rfl).2.2⟩

/-- Claim C8: the suggestion list is never empty; a shortcut suggestion is
emitted for every `(page, tool)` used more than 10 times; and when no
suggestion applies (no such tool, timeline analysis failed — in particular
with zero recorded data) the result is exactly the fallback message. -/
theorem claim_C8 (u : List (String × List (String × Nat)))
    (p : Except String Resolve.CutStats) :
    Resolve.suggest_workflow_optimization u p ≠ [] ∧
    (∀ page tools tool count, (page, tools) ∈ u → (tool, count) ∈ tools → 10 < count →
        Resolve.Suggestion.shortcut page tool count
          ∈ Resolve.suggest_workflow_optimization u p) ∧
    ((∀ page tools tool count, (page, tools) ∈ u → (tool, count) ∈ tools → count ≤ 10) →
        ∀ e, p = Except.error e →
        Resolve.suggest_workflow_optimization u p = [Resolve.Suggestion.keepEditing]) := by
  refine ⟨?_, ?_, ?_⟩
  · unfold Resolve.suggest_workflow_optimization
    split_ifs with hS
    · simp
    · exact hS
  · intro page tools tool count hu ht hcount
    have hm : Resolve.Suggestion.shortcut page tool count
        ∈ Resolve.shortcutSuggestions u := by
      unfold Resolve.shortcutSuggestions
      rw [List.mem_flatMap]
      refine ⟨(page, tools), hu, ?_⟩
      rw [List.mem_filterMap]
      exact ⟨(tool, count), ht, by simp [hcount]⟩
    unfold Resolve.suggest_workflow_optimization
    split_ifs with hS
    · rw [List.append_eq_nil] at hS
      rw [hS.1] at hm
      exact absurd hm (List.not_mem_nil _)
    · exact List.mem_append_left _ hm
  · intro hsmall e hpe
    subst hpe
    have hempty : Resolve.shortcutSuggestions u = [] := by
      unfold Resolve.shortcutSuggestions
      rw [List.flatMap_eq_nil_iff]
      intro pt hpt
      rw [List.filterMap_eq_nil_iff]
      intro tc htc
      have hle : tc.2 ≤ 10 := hsmall pt.1 pt.2 tc.1 tc.2 hpt htc
      simp [Nat.not_lt.mpr hle]
    have htl : Resolve.timelineSuggestions (Except.error e) = [] := rfl
    unfold Resolve.suggest_workflow_optimization
    rw [hempty, htl]
    simp

theorem claim_C8_witness :
    Resolve.suggest_workflow_optimization usage11 (Except.error "No cuts found") ≠ [] ∧
    Resolve.Suggestion.shortcut "color" "Qualifier" 11
        ∈ Resolve.suggest_workflow_optimization usage11 (Except.error "No cuts found") ∧
    Resolve.suggest_workflow_optimization [] (Except.error "No cuts found")
        = [Resolve.Suggestion.keepEditing] :=
  ⟨(claim_C8 usage11 (Except.error "No cuts found")).1,
   (claim_C8 usage11 (Except.error "No cuts found")).2.1
     "color" [("Qualifier", 11)] "Qualifier" 11 (by decide) (by decide) (by decide),
   (claim_C8 [] (Except.error "No cuts found")).2.2
     (fun a b c d h1 _ => absurd h1 (List.not_mem_nil _)) "No cuts found" rfl⟩

end VideoEditing
